import Mathlib

/-!
Verification of `pytorch_lightning/plugins/ddp_plugin.py` (class `DDPPlugin`).

The Python class is embedded shallowly:
* keyword-argument dictionaries become association lists over a small
  universe `PyVal` of Python values, with Python-dict lookup/update semantics
  (`dictGet`, `dictSet`: update replaces the value of an existing key in
  place, otherwise appends);
* the side effects of `init_ddp_connection` (writes to `os.environ`, the
  call to `torch.distributed.init_process_group`, the log line) become an
  explicit list of `Event`s, in program order;
* the ambient result of `torch.distributed.is_initialized()` is an explicit
  boolean input `dist_is_init`;
* mutation of `self._ddp_kwargs` inside `configure_ddp` is modelled by
  returning the updated plugin state next to the constructed wrapper.
-/

/-- A small universe of Python values: booleans, integers, strings, and
other objects (identified by a number). -/
inductive PyVal where
  | bool : Bool → PyVal
  | int : Int → PyVal
  | str : String → PyVal
  | other : Nat → PyVal
deriving DecidableEq, Repr

/-- Python `str(...)` on this value universe.  `str` of a string is the
string itself; booleans print as `True` / `False`; integers as decimal
(with a leading minus sign when negative); other objects get a default
object representation. -/
def pyStr : PyVal → String
  | .bool true => "True"
  | .bool false => "False"
  | .int n => toString n
  | .str s => s
  | .other n => "<object " ++ toString n ++ ">"

/-- A Python keyword-argument dictionary: an association list from
names to values (keys are unique when built from `**kwargs`). -/
abbrev KwDict := List (String × PyVal)

/-- Python `d.get(k)` / `d[k]` read: the value at the first matching key. -/
def dictGet (d : KwDict) (k : String) : Option PyVal :=
  match d with
  | [] => none
  | (k', v) :: rest => if k' = k then some v else dictGet rest k

/-- Python `k in d`. -/
def dictHas (d : KwDict) (k : String) : Bool :=
  (dictGet d k).isSome

/-- Python `d[k] = v` write: replace the value at an existing key in
place (keys are unique, so at the first matching binding), otherwise
append the new binding at the end. -/
def dictSet (d : KwDict) (k : String) (v : PyVal) : KwDict :=
  match d with
  | [] => [(k, v)]
  | (k', v') :: rest =>
    if k' = k then (k', v) :: rest else (k', v') :: dictSet rest k v

/-- State of a `DDPPlugin` instance: the keyword arguments captured by
`__init__` as `self._ddp_kwargs`. -/
structure DDPPlugin where
  ddp_kwargs : KwDict
deriving DecidableEq, Repr

/-- `DDPPlugin.__init__(self, **kwargs)`: stores the keyword arguments. -/
def DDPPlugin.init (kwargs : KwDict) : DDPPlugin :=
  ⟨kwargs⟩

/-- The `LightningDistributedDataParallel` wrapper, as constructed by
`configure_ddp`: it records the positional model argument, the
`device_ids` keyword argument, and the remaining keyword arguments. -/
structure LightningDistributedDataParallel (μ : Type) where
  model : μ
  device_ids : List Int
  kwargs : KwDict
deriving DecidableEq, Repr

/-- `DDPPlugin.configure_ddp(self, model, device_ids)`.

Source: first `self._ddp_kwargs["find_unused_parameters"] =
self._ddp_kwargs.get("find_unused_parameters", True)`, then construct
`LightningDistributedDataParallel(model, device_ids=device_ids,
**self._ddp_kwargs)` and return it.  The updated plugin state is
returned alongside the wrapper (the Python method mutates
`self._ddp_kwargs`). -/
def DDPPlugin.configure_ddp {μ : Type} (self : DDPPlugin) (model : μ)
    (device_ids : List Int) :
    DDPPlugin × LightningDistributedDataParallel μ :=
  let kw := dictSet self.ddp_kwargs "find_unused_parameters"
    ((dictGet self.ddp_kwargs "find_unused_parameters").getD (.bool true))
  (⟨kw⟩, ⟨model, device_ids, kw⟩)

/-- The part of the `trainer` argument that `init_ddp_connection` reads. -/
structure Trainer where
  on_gpu : Bool
deriving DecidableEq, Repr

/-- The part of the `cluster_environment` argument that
`init_ddp_connection` reads: the results of its `master_address()`,
`master_port()` and `world_size()` methods. -/
structure ClusterEnvironment where
  master_address : PyVal
  master_port : PyVal
  world_size : PyVal
deriving DecidableEq, Repr

/-- An observable side effect of `init_ddp_connection`, in program order:
a write `os.environ[name] = value`, the call
`torch.distributed.init_process_group(backend, rank=..., world_size=...)`,
or the `log.info(msg)` line. -/
inductive Event where
  | setEnv (name value : String)
  | initProcessGroup (backend : String) (rank world_size : Int)
  | logInfo (msg : String)
deriving DecidableEq, Repr

/-- `e` is an environment-variable write. -/
def Event.isSetEnv : Event → Bool
  | .setEnv _ _ => true
  | _ => false

/-- `e` is the `init_process_group` call. -/
def Event.isInitProcessGroup : Event → Bool
  | .initProcessGroup _ _ _ => true
  | _ => false

/-- `DDPPlugin.init_ddp_connection(self, trainer, cluster_environment,
global_rank, world_size, is_slurm_managing_tasks=True)`.

`dist_is_init` is the ambient value of
`torch.distributed.is_initialized()`.  The result is the list of side
effects the call performs, in program order:
three `os.environ` writes, then — only when the process group is not yet
initialized — the log line and the `init_process_group` call with
backend `"nccl"` when `trainer.on_gpu` else `"gloo"`. -/
def DDPPlugin.init_ddp_connection (_self : DDPPlugin) (trainer : Trainer)
    (cluster_environment : ClusterEnvironment)
    (global_rank world_size : Int)
    (is_slurm_managing_tasks : Bool)
    (dist_is_init : Bool) : List Event :=
  [Event.setEnv "MASTER_ADDR" (pyStr cluster_environment.master_address),
   Event.setEnv "MASTER_PORT" (pyStr cluster_environment.master_port),
   Event.setEnv "WORLD_SIZE" (pyStr cluster_environment.world_size)]
  ++
  (let torch_backend := if trainer.on_gpu then "nccl" else "gloo"
   if ¬ dist_is_init then
     [Event.logInfo ("initializing ddp: GLOBAL_RANK: " ++ toString global_rank
        ++ ", MEMBER: " ++ toString (global_rank + 1) ++ "/" ++ toString world_size),
      Event.initProcessGroup torch_backend global_rank world_size]
   else [])

/-- `DDPPlugin.on_before_forward(self, model, *args)`: returns `args`. -/
def DDPPlugin.on_before_forward {μ : Type} (_self : DDPPlugin) (_model : μ)
    (args : List PyVal) : List PyVal :=
  args

/-- The part of an `Optimizer` that `optimizer_state` reads: the result
of its `state_dict()` method. -/
structure Optimizer where
  state_dict : KwDict
deriving DecidableEq, Repr

/-- `DDPPlugin.optimizer_state(self, optimizer)`: returns
`optimizer.state_dict()`. -/
def DDPPlugin.optimizer_state (_self : DDPPlugin) (optimizer : Optimizer) : KwDict :=
  optimizer.state_dict

/-- Number of `init_process_group` calls in a trace. -/
def countIPG (t : List Event) : Nat :=
  (t.filter Event.isInitProcessGroup).length

/-! ### Dictionary lemmas -/

theorem dictGet_dictSet_self (d : KwDict) (k : String) (v : PyVal) :
    dictGet (dictSet d k v) k = some v := by
  induction d with
  | nil => simp [dictSet, dictGet]
  | cons hd tl ih =>
    obtain ⟨k₁, v₁⟩ := hd
    by_cases hk : k₁ = k
    · simp [dictSet, dictGet, hk]
    · simp [dictSet, dictGet, hk, ih]

theorem dictGet_dictSet_ne (d : KwDict) (k k' : String) (v : PyVal)
    (hne : k' ≠ k) :
    dictGet (dictSet d k v) k' = dictGet d k' := by
  induction d with
  | nil => simp [dictSet, dictGet, Ne.symm hne]
  | cons hd tl ih =>
    obtain ⟨k₁, v₁⟩ := hd
    by_cases hk : k₁ = k
    · subst hk
      simp [dictSet, dictGet, Ne.symm hne]
    · simp [dictSet, dictGet, hk, ih]

theorem dictGet_dictSet_getD (d : KwDict) (k k' : String) (w v : PyVal)
    (h : dictGet d k' = some v) :
    dictGet (dictSet d k ((dictGet d k).getD w)) k' = some v := by
  by_cases hk : k' = k
  · subst hk
    rw [dictGet_dictSet_self, h]
    rfl
  · rw [dictGet_dictSet_ne d k k' _ hk, h]

/-! ### Claim theorems -/

/-- C1, as stated, is false: the claim says `init_ddp_connection` calls
`init_process_group` exactly once regardless of whether the process group
is already initialized, but when `torch.distributed.is_initialized()` is
true the guard `if not torch_distrib.is_initialized()` skips the call, so
it is made zero times.  Concrete counterexample: a plugin with no kwargs,
a CPU trainer, a concrete cluster environment, `global_rank = 0`,
`world_size = 2`, process group already initialized. -/
theorem C1_counterexample :
    countIPG ((DDPPlugin.init []).init_ddp_connection ⟨false⟩
      ⟨.str "127.0.0.1", .int 29500, .int 2⟩ 0 2 true true) ≠ 1 := by
  decide

/-- C1 (amended): every call to `DDPPlugin.init_ddp_connection` calls
`init_process_group` exactly once when the process group is not already
initialized, and zero times when it already is. -/
theorem C1_amended_ipg_count (self : DDPPlugin) (trainer : Trainer)
    (env : ClusterEnvironment) (global_rank world_size : Int)
    (slurm dist_is_init : Bool) :
    countIPG (self.init_ddp_connection trainer env global_rank world_size
      slurm dist_is_init) = if dist_is_init then 0 else 1 := by
  cases dist_is_init <;>
    simp [DDPPlugin.init_ddp_connection, countIPG, Event.isInitProcessGroup,
      List.filter]

/-- C2: for every stored constructor keyword-argument dictionary, model
and device-id list, `configure_ddp` builds a
`LightningDistributedDataParallel` that receives the model, the
device ids, and every stored constructor keyword argument unchanged, and
returns that wrapper. -/
theorem C2_configure_ddp_forwards {μ : Type} (self : DDPPlugin) (model : μ)
    (device_ids : List Int) (k : String) (v : PyVal)
    (h : dictGet self.ddp_kwargs k = some v) :
    (self.configure_ddp model device_ids).2.model = model ∧
    (self.configure_ddp model device_ids).2.device_ids = device_ids ∧
    dictGet (self.configure_ddp model device_ids).2.kwargs k = some v := by
  refine ⟨rfl, rfl, ?_⟩
  exact dictGet_dictSet_getD self.ddp_kwargs "find_unused_parameters" k
    (.bool true) v h

/-- Witness for C2 at a concrete input: a plugin constructed with a single
keyword argument `x = 5`, a `Nat` model `7` and device ids `[0, 1]`. -/
theorem C2_witness :
    ((DDPPlugin.init [("x", PyVal.int 5)]).configure_ddp (7 : Nat)
      [0, 1]).2.model = 7 ∧
    ((DDPPlugin.init [("x", PyVal.int 5)]).configure_ddp (7 : Nat)
      [0, 1]).2.device_ids = [0, 1] ∧
    dictGet ((DDPPlugin.init [("x", PyVal.int 5)]).configure_ddp (7 : Nat)
      [0, 1]).2.kwargs "x" = some (PyVal.int 5) :=
  C2_configure_ddp_forwards (DDPPlugin.init [("x", PyVal.int 5)]) 7 [0, 1]
    "x" (PyVal.int 5) (by decide)

/-- C3: every call to `init_ddp_connection` performs exactly three
environment-variable writes — `MASTER_ADDR`, `MASTER_PORT` and
`WORLD_SIZE`, in that order, set to the `str(...)` forms of
`cluster_environment.master_address()`, `.master_port()` and
`.world_size()` — and no other environment-variable write. -/
theorem C3_env_writes (self : DDPPlugin) (trainer : Trainer)
    (env : ClusterEnvironment) (global_rank world_size : Int)
    (slurm dist_is_init : Bool) :
    (self.init_ddp_connection trainer env global_rank world_size
        slurm dist_is_init).filter Event.isSetEnv =
      [Event.setEnv "MASTER_ADDR" (pyStr env.master_address),
       Event.setEnv "MASTER_PORT" (pyStr env.master_port),
       Event.setEnv "WORLD_SIZE" (pyStr env.world_size)] := by
  cases dist_is_init <;>
    simp [DDPPlugin.init_ddp_connection, Event.isSetEnv, List.filter]

/-- C5: `on_before_forward` is a pure passthrough: it returns its `args`
tuple unchanged for every model and argument list. -/
theorem C5_on_before_forward_id {μ : Type} (self : DDPPlugin) (model : μ)
    (args : List PyVal) :
    self.on_before_forward model args = args :=
  rfl

/-- C6: `optimizer_state` returns exactly `optimizer.state_dict()`, with
no transformation. -/
theorem C6_optimizer_state_id (self : DDPPlugin) (optimizer : Optimizer) :
    self.optimizer_state optimizer = optimizer.state_dict :=
  rfl

/-- C10: the behaviour of `init_ddp_connection` is independent of
`is_slurm_managing_tasks`: two calls differing only in that flag produce
the same event trace (same environment writes, same decision to call
`init_process_group`, same arguments to it). -/
theorem C10_slurm_independent (self : DDPPlugin) (trainer : Trainer)
    (env : ClusterEnvironment) (global_rank world_size : Int)
    (s₁ s₂ dist_is_init : Bool) :
    self.init_ddp_connection trainer env global_rank world_size s₁
        dist_is_init =
      self.init_ddp_connection trainer env global_rank world_size s₂
        dist_is_init :=
  rfl

/-- C4: whenever `init_ddp_connection` does call `init_process_group`,
the call receives rank equal to the `global_rank` argument, world size
equal to the `world_size` argument, and backend `"nccl"` when
`trainer.on_gpu` holds and `"gloo"` otherwise. -/
theorem C4_ipg_args (self : DDPPlugin) (trainer : Trainer)
    (env : ClusterEnvironment) (global_rank world_size : Int)
    (slurm dist_is_init : Bool) (b : String) (r w : Int)
    (h : Event.initProcessGroup b r w ∈
      self.init_ddp_connection trainer env global_rank world_size slurm
        dist_is_init) :
    b = (if trainer.on_gpu then "nccl" else "gloo") ∧
    r = global_rank ∧ w = world_size := by
  cases dist_is_init with
  | true => simp [DDPPlugin.init_ddp_connection] at h
  | false =>
    simp [DDPPlugin.init_ddp_connection] at h
    exact ⟨h.1, h.2.1, h.2.2⟩

/-- Witness for C4 at a concrete input: CPU trainer, process group not
yet initialized, `global_rank = 0`, `world_size = 2`. -/
theorem C4_witness :
    Event.initProcessGroup "gloo" 0 2 ∈
      (DDPPlugin.init []).init_ddp_connection ⟨false⟩
        ⟨.str "127.0.0.1", .int 29500, .int 2⟩ 0 2 true false ∧
    ("gloo" = (if (Trainer.mk false).on_gpu then "nccl" else "gloo") ∧
      (0 : Int) = 0 ∧ (2 : Int) = 2) :=
  ⟨by decide,
   C4_ipg_args (DDPPlugin.init []) ⟨false⟩
     ⟨.str "127.0.0.1", .int 29500, .int 2⟩ 0 2 true false "gloo" 0 2
     (by decide)⟩

/-- C7: in every execution of `init_ddp_connection`, every
environment-variable write happens strictly before any
`init_process_group` call in the event trace, and all three writes
(`MASTER_ADDR`, `MASTER_PORT`, `WORLD_SIZE`) are already present in the
trace prefix preceding the `init_process_group` call. -/
theorem C7_env_before_ipg (self : DDPPlugin) (trainer : Trainer)
    (env : ClusterEnvironment) (global_rank world_size : Int)
    (slurm dist_is_init : Bool) (j : Nat) (e : Event)
    (hj : (self.init_ddp_connection trainer env global_rank world_size slurm
      dist_is_init).get? j = some e)
    (he : e.isInitProcessGroup = true) :
    (∀ i e', (self.init_ddp_connection trainer env global_rank world_size
        slurm dist_is_init).get? i = some e' → e'.isSetEnv = true → i < j) ∧
    Event.setEnv "MASTER_ADDR" (pyStr env.master_address) ∈
      (self.init_ddp_connection trainer env global_rank world_size slurm
        dist_is_init).take j ∧
    Event.setEnv "MASTER_PORT" (pyStr env.master_port) ∈
      (self.init_ddp_connection trainer env global_rank world_size slurm
        dist_is_init).take j ∧
    Event.setEnv "WORLD_SIZE" (pyStr env.world_size) ∈
      (self.init_ddp_connection trainer env global_rank world_size slurm
        dist_is_init).take j := by
  cases dist_is_init with
  | true =>
    rcases j with _ | _ | _ | j <;>
      simp [DDPPlugin.init_ddp_connection] at hj <;>
      simp [← hj, Event.isInitProcessGroup] at he
  | false =>
    rcases j with _ | _ | _ | _ | _ | j <;>
      simp [DDPPlugin.init_ddp_connection] at hj
    · simp [← hj, Event.isInitProcessGroup] at he
    · simp [← hj, Event.isInitProcessGroup] at he
    · simp [← hj, Event.isInitProcessGroup] at he
    · simp [← hj, Event.isInitProcessGroup] at he
    · refine ⟨?_, ?_, ?_, ?_⟩
      · intro i e' hi hset
        rcases i with _ | _ | _ | _ | _ | i <;>
          simp [DDPPlugin.init_ddp_connection] at hi
        · omega
        · omega
        · omega
        · simp [← hi, Event.isSetEnv] at hset
        · simp [← hi, Event.isSetEnv] at hset
      · simp [DDPPlugin.init_ddp_connection, List.take]
      · simp [DDPPlugin.init_ddp_connection, List.take]
      · simp [DDPPlugin.init_ddp_connection, List.take]

/-- Witness for C7 at a concrete input: GPU trainer, process group not
yet initialized; the `init_process_group` event sits at index 4 and the
three environment writes are all in the trace prefix of length 4. -/
theorem C7_witness :
    Event.setEnv "MASTER_ADDR" "10.0.0.1" ∈
      ((DDPPlugin.init []).init_ddp_connection ⟨true⟩
        ⟨.str "10.0.0.1", .int 29500, .int 2⟩ 0 2 true false).take 4 ∧
    Event.setEnv "MASTER_PORT" "29500" ∈
      ((DDPPlugin.init []).init_ddp_connection ⟨true⟩
        ⟨.str "10.0.0.1", .int 29500, .int 2⟩ 0 2 true false).take 4 ∧
    Event.setEnv "WORLD_SIZE" "2" ∈
      ((DDPPlugin.init []).init_ddp_connection ⟨true⟩
        ⟨.str "10.0.0.1", .int 29500, .int 2⟩ 0 2 true false).take 4 :=
  (C7_env_before_ipg (DDPPlugin.init []) ⟨true⟩
    ⟨.str "10.0.0.1", .int 29500, .int 2⟩ 0 2 true false 4
    (Event.initProcessGroup "nccl" 0 2) (by decide) (by decide)).2

/-- C8: if the stored constructor kwargs lack `find_unused_parameters`,
`configure_ddp` passes `find_unused_parameters = True` to the wrapper;
if they contain it, the stored value is passed unchanged; and afterwards
the plugin's stored kwargs dictionary contains a
`find_unused_parameters` entry (the call mutates the stored dict). -/
theorem C8_find_unused_parameters {μ : Type} (self : DDPPlugin) (model : μ)
    (device_ids : List Int) :
    (dictGet self.ddp_kwargs "find_unused_parameters" = none →
      dictGet (self.configure_ddp model device_ids).2.kwargs
        "find_unused_parameters" = some (.bool true)) ∧
    (∀ v, dictGet self.ddp_kwargs "find_unused_parameters" = some v →
      dictGet (self.configure_ddp model device_ids).2.kwargs
        "find_unused_parameters" = some v) ∧
    dictHas (self.configure_ddp model device_ids).1.ddp_kwargs
      "find_unused_parameters" = true := by
  refine ⟨?_, ?_, ?_⟩
  · intro h
    simp [DDPPlugin.configure_ddp, h, dictGet_dictSet_self]
  · intro v h
    simp [DDPPlugin.configure_ddp, h, dictGet_dictSet_self]
  · simp [DDPPlugin.configure_ddp, dictHas, dictGet_dictSet_self]

/-- Witness for C8 at a concrete input: a plugin constructed with no
keyword arguments, so the default `find_unused_parameters = True` is
supplied and also written back into the stored kwargs. -/
theorem C8_witness :
    dictGet ((DDPPlugin.init []).configure_ddp (0 : Nat) []).2.kwargs
      "find_unused_parameters" = some (.bool true) ∧
    dictHas ((DDPPlugin.init []).configure_ddp (0 : Nat) []).1.ddp_kwargs
      "find_unused_parameters" = true :=
  ⟨(C8_find_unused_parameters (DDPPlugin.init []) (0 : Nat) []).1 rfl,
   (C8_find_unused_parameters (DDPPlugin.init []) (0 : Nat) []).2.2⟩

/-- C9: the three environment variables are set unconditionally: even
when the process group is already initialized (so `init_process_group`
is not called at all), `MASTER_ADDR`, `MASTER_PORT` and `WORLD_SIZE` are
still written from the cluster environment. -/
theorem C9_env_when_already_initialized (self : DDPPlugin)
    (trainer : Trainer) (env : ClusterEnvironment)
    (global_rank world_size : Int) (slurm : Bool) :
    (self.init_ddp_connection trainer env global_rank world_size slurm
        true).filter Event.isSetEnv =
      [Event.setEnv "MASTER_ADDR" (pyStr env.master_address),
       Event.setEnv "MASTER_PORT" (pyStr env.master_port),
       Event.setEnv "WORLD_SIZE" (pyStr env.world_size)] ∧
    countIPG (self.init_ddp_connection trainer env global_rank world_size
      slurm true) = 0 := by
  constructor <;>
    simp [DDPPlugin.init_ddp_connection, Event.isSetEnv, countIPG,
      Event.isInitProcessGroup, List.filter]
